import Mathlib

/-!
Verification of the command-resolution core of the `show` CLI
(`src/show/main.py`): the alias table loaded by `Config.read_config`, the
three-tier resolution algorithm of `AliasedGroup.get_command` (exact builtin
match, alias lookup, prefix abbreviation, default fallback), the dispatch
plumbing around it, and the exit-code propagation of `run_command`.

Python strings are Lean `String`s (compared by code points, as Python does),
Python dicts over string keys are association lists in insertion order, and
Python `None` is `Option.none`.
-/

namespace SonicShow

/-- Python `dict.get(k)` over an association list in insertion order:
the first binding of the key wins (keys are unique in practice). -/
def dictGet {α : Type} : List (String × α) → String → Option α
  | [], _ => none
  | (k', v) :: rest, k => if k' = k then some v else dictGet rest k

/-- Python `dict.get(k)` where the looked-up value may be `None`
(a Python dict with string keys never contains the key `None`). -/
def dictGetOpt {α : Type} (d : List (String × α)) : Option String → Option α
  | none => none
  | some k => dictGet d k

/-- Python `d[k] = v`: replace the binding if the key is present,
append it otherwise. -/
def dictSet {α : Type} (d : List (String × α)) (k : String) (v : α) :
    List (String × α) :=
  if (dictGet d k).isSome then
    d.map (fun p => if p.1 = k then (k, v) else p)
  else
    d ++ [(k, v)]

/-- Python `dict.update(items)`: set each key/value pair in order. -/
def dictUpdate {α : Type} (d : List (String × α)) (l : List (String × α)) :
    List (String × α) :=
  l.foldl (fun acc p => dictSet acc p.1 p.2) d

/-- Python `str.startswith` on code-point lists: the second list is an
initial segment of the first. -/
def charsStartWith : List Char → List Char → Bool
  | _, [] => true
  | [], _ :: _ => false
  | c :: cs, p :: ps => (c = p) && charsStartWith cs ps

/-- Python `s.startswith(pre)`. -/
def pyStartsWith (s pre : String) : Bool :=
  charsStartWith s.data pre.data

/-- Python `str.lower`, as a code-point map (ASCII letters in practice). -/
def pyLower (s : String) : String :=
  String.mk (s.data.map Char.toLower)

/-- Python `<` on strings: lexicographic comparison of code points. -/
def charListLt : List Char → List Char → Bool
  | [], [] => false
  | [], _ :: _ => true
  | _ :: _, [] => false
  | c :: cs, d :: ds => if c < d then true else if d < c then false else charListLt cs ds

/-- Python `a < b` on strings. -/
def strLt (a b : String) : Bool :=
  charListLt a.data b.data

/-- Insert a string into a sorted list, keeping equal elements stable. -/
def insertSorted (s : String) : List String → List String
  | [] => [s]
  | x :: xs => if strLt s x then s :: x :: xs else x :: insertSorted s xs

/-- Python `sorted` on strings: stable ascending insertion sort. -/
def sortStrings : List String → List String
  | [] => []
  | x :: xs => insertSorted x (sortStrings xs)

/-- Whether a group object was created as a plain `click.Group` or as the
`AliasedGroup` subclass of `src/show/main.py` (itself a `DefaultGroup`). -/
inductive GroupClass where
  | clickGroup
  | aliasedGroup
  deriving DecidableEq

/-- A click group node: its class, its child commands as the insertion-order
dict `name -> child node id`, and the `DefaultGroup` configuration
(`default_cmd_name`, `default_if_no_args`); for a plain `click.Group` the
last two fields are unused and set to `none` / `false`. Child nodes are
identified by a numeric id so that the same node can be registered under
several parents. -/
structure Group where
  cls : GroupClass
  commands : List (String × Nat)
  default_cmd_name : Option String
  default_if_no_args : Bool
  deriving DecidableEq

/-- The click context state that the resolution code touches: the dynamic
`ctx.arg0` attribute. The outer `Option` is whether the attribute has been
set at all (`hasattr`), the inner `Option String` is its Python value,
which may be `None`. -/
structure Ctx where
  arg0 : Option (Option String)
  deriving DecidableEq

/-- Outcome of a resolution step: a normal return carrying the possibly
updated context, or a `ctx.fail` (click `UsageError`), which aborts the
invocation with the given exit code and message. click's `UsageError`
carries exit code 2. -/
inductive Result (α : Type) where
  | ok (ctx : Ctx) (val : α)
  | fail (exitCode : Nat) (message : String)
  deriving DecidableEq

/-- Modelled from the spec: `click.Group.get_command` (the click library is
not under `src/`), the "exact builtin match" of resolution step 1 — a
case-sensitive lookup of the token among the group's declared child names,
`self.commands.get(cmd_name)`. -/
def click.Group.get_command (g : Group) (cmd_name : String) : Option Nat :=
  dictGet g.commands cmd_name

/-- Modelled from the spec: `click.Group.list_commands` (the click library
is not under `src/`), the declared child names in sorted order,
`sorted(self.commands)`. -/
def list_commands (g : Group) : List String :=
  sortStrings (g.commands.map Prod.fst)

/-- Modelled from the spec: `DefaultGroup.get_command` of the external
`click_default_group` dependency (not under `src/`), the "default fallback"
of resolution step 4 — if the name is not a registered child, record it as
the implicit argument `ctx.arg0` and look up the group's declared default
child name instead; the exact lookup of the resulting name is returned. -/
def DefaultGroup.get_command (g : Group) (ctx : Ctx) (cmd_name : Option String) :
    Ctx × Option Nat :=
  if (dictGetOpt g.commands cmd_name).isSome then
    (ctx, dictGetOpt g.commands cmd_name)
  else
    (Ctx.mk (some cmd_name), dictGetOpt g.commands g.default_cmd_name)

/-- Wrap the pair returned by `DefaultGroup.get_command` as a normal
(non-failing) resolution result. -/
def resultOfPair (p : Ctx × Option Nat) : Result (Option Nat) :=
  Result.ok p.1 p.2

/-- The abbreviation candidates of `AliasedGroup.get_command`
(`src/show/main.py` lines 74-75): the declared child names whose lowercased
form starts with the lowercased token. -/
def matchesFor (g : Group) (cmd_name : String) : List String :=
  (list_commands g).filter fun x => pyStartsWith (pyLower x) (pyLower cmd_name)

/-- The tail of `AliasedGroup.get_command` (`src/show/main.py` lines 74-83),
reached when neither the exact builtin lookup nor the alias lookup returned:
no abbreviation candidate issues the default command (recording the token as
`ctx.arg0`), a unique candidate is resolved exactly, and several candidates
are a fatal `ctx.fail` listing them sorted and comma-joined. -/
def abbrevOrDefaultStage (g : Group) (ctx : Ctx) (cmd_name : String) :
    Result (Option Nat) :=
  if (matchesFor g cmd_name).isEmpty then
    resultOfPair (DefaultGroup.get_command g (Ctx.mk (some (some cmd_name)))
      g.default_cmd_name)
  else if (matchesFor g cmd_name).length = 1 then
    resultOfPair (DefaultGroup.get_command g ctx
      (some ((matchesFor g cmd_name).headD "")))
  else
    Result.fail 2 ("Too many matches: " ++
      String.intercalate ", " (sortStrings (matchesFor g cmd_name)))

/-- `AliasedGroup.get_command` (`src/show/main.py` lines 49-83). The lazily
initialised global alias table (read from `aliases.ini`, a data file not
under `src/`) is passed in as the `aliases` parameter. Step 1: exact builtin
lookup; step 2: alias lookup, whose target is then looked up exactly and
returned unconditionally; otherwise the abbreviation / default tail. -/
def AliasedGroup.get_command (aliases : List (String × String)) (g : Group)
    (ctx : Ctx) (cmd_name : String) : Result (Option Nat) :=
  match click.Group.get_command g cmd_name with
  | some rv => Result.ok ctx (some rv)
  | none =>
    match dictGet aliases cmd_name with
    | some actual_cmd => Result.ok ctx (click.Group.get_command g actual_cmd)
    | none => abbrevOrDefaultStage g ctx cmd_name

/-- Modelled from the spec: `MultiCommand.resolve_command` of click combined
with the `DefaultGroup.resolve_command` override (both libraries are not
under `src/`). The first remaining argument is resolved through
`AliasedGroup.get_command`; a `None` result is the fatal "No such command"
usage error; otherwise, when `ctx.arg0` was set, its value is prepended to
the remaining arguments handed to the resolved node. The argument list
handed on is a Python list whose entries may be `None`, hence
`List (Option String)`. -/
def DefaultGroup.resolve_command (aliases : List (String × String)) (g : Group)
    (ctx : Ctx) (args : List String) : Result (Nat × List (Option String)) :=
  match args with
  | [] => Result.fail 2 "Missing command."
  | a0 :: rest =>
    match AliasedGroup.get_command aliases g ctx a0 with
    | Result.fail code msg => Result.fail code msg
    | Result.ok _ none => Result.fail 2 ("No such command \"" ++ a0 ++ "\".")
    | Result.ok ctx2 (some cmd) =>
      match ctx2.arg0 with
      | none => Result.ok ctx2 (cmd, rest.map some)
      | some v => Result.ok ctx2 (cmd, v :: rest.map some)

/-- Dynamic dispatch of `get_command` on the class of the group object:
a plain `click.Group` only has the exact builtin lookup, while an
`AliasedGroup` runs the full three-tier algorithm. -/
def Group.get_command_by_class (aliases : List (String × String)) (g : Group)
    (ctx : Ctx) (cmd_name : String) : Result (Option Nat) :=
  match g.cls with
  | GroupClass.clickGroup => Result.ok ctx (dictGet g.commands cmd_name)
  | GroupClass.aliasedGroup => AliasedGroup.get_command aliases g ctx cmd_name

/-!
The command registry built by `src/show/main.py` at import time. Each
command or group object gets a numeric node id; groups also appear as
`Group` values. Children are listed in registration order, which is the
order of the decorators and `add_command` calls in the source.
-/

/-- The root `cli` group (`src/show/main.py` line 116): an `AliasedGroup`
whose children are registered at lines 128, 146, 207, 241, 266, 304, 328,
362, 372, 389, 399, 409, 452, 481, 500, 508 and 518. -/
def cliGroup : Group :=
  ⟨GroupClass.aliasedGroup,
   [("ip", 30), ("interfaces", 31), ("lldp", 32), ("bgp", 33),
    ("platform", 34), ("logging", 11), ("version", 12), ("environment", 13),
    ("processes", 35), ("users", 15), ("techsupport", 16),
    ("runningconfiguration", 36), ("startupconfiguration", 37),
    ("arp", 22), ("route", 23), ("ntp", 24), ("uptime", 25)],
   none, false⟩

/-- The `ip` group (`src/show/main.py` lines 128-131): declared with plain
`@cli.group()`, hence class `click.Group`; children added at lines 147,
242, 482 and 501. -/
def ipGroup : Group :=
  ⟨GroupClass.clickGroup,
   [("interfaces", 31), ("bgp", 33), ("arp", 22), ("route", 23)],
   none, false⟩

/-- The `interfaces` group (`src/show/main.py` line 140), an `AliasedGroup`
with `default_if_no_args=False` and children at lines 150, 165, 185, 191. -/
def interfacesGroup : Group :=
  ⟨GroupClass.aliasedGroup,
   [("summary", 1), ("counters", 2), ("portchannel", 3), ("sfp", 4)],
   none, false⟩

/-- The `lldp` group (`src/show/main.py` line 207), an `AliasedGroup` with
children `neighbors` (line 213) and `table` (line 224). -/
def lldpGroup : Group :=
  ⟨GroupClass.aliasedGroup, [("neighbors", 5), ("table", 6)], none, false⟩

/-- The `bgp` group (`src/show/main.py` line 235), an `AliasedGroup` with
children `neighbor` (line 245) and `summary` (line 256). -/
def bgpGroup : Group :=
  ⟨GroupClass.aliasedGroup, [("neighbor", 7), ("summary", 8)], none, false⟩

/-- The `platform` group (`src/show/main.py` line 266), an `AliasedGroup`
with children `summary` (line 271) and `syseeprom` (line 294). -/
def platformGroup : Group :=
  ⟨GroupClass.aliasedGroup, [("summary", 9), ("syseeprom", 10)], none, false⟩

/-- The `processes` group (`src/show/main.py` lines 372-375): declared with
plain `@cli.group()`, hence class `click.Group`; one child `cpu`
(line 378). -/
def processesGroup : Group :=
  ⟨GroupClass.clickGroup, [("cpu", 14)], none, false⟩

/-- The `runningconfiguration` group (`src/show/main.py` line 409), an
`AliasedGroup` with children at lines 416, 423, 435, 443. -/
def runningconfigurationGroup : Group :=
  ⟨GroupClass.aliasedGroup,
   [("bgp", 17), ("interfaces", 18), ("snmp", 19), ("ntp", 20)],
   none, false⟩

/-- The `startupconfiguration` group (`src/show/main.py` line 452), an
`AliasedGroup` with the single child `bgp` (line 459). -/
def startupconfigurationGroup : Group :=
  ⟨GroupClass.aliasedGroup, [("bgp", 21)], none, false⟩

/-- A fixture: an `AliasedGroup` that declares a default child (no group in
`src/show/main.py` does, so the default-fallback path is exercised on this
configuration). -/
def demoDefaultGroup : Group :=
  ⟨GroupClass.aliasedGroup, [("status", 90), ("restart", 91)],
   some "status", true⟩

/-- A fixture: a group with the single child `status`, used with an alias
whose target `nosuch` is not registered under the group. -/
def gAliasMiss : Group :=
  ⟨GroupClass.aliasedGroup, [("status", 90)], some "status", false⟩

/-!
The alias-table loader `Config.read_config` (`src/show/main.py` lines
28-34) and the action runner `run_command` (lines 86-105).
-/

/-- An INI file as the config parser sees it: named sections, each a list
of key/value items. `none` at the use sites models an absent file. -/
structure IniFile where
  sections : List (String × List (String × String))
  deriving DecidableEq

/-- Modelled from the spec: `configparser.RawConfigParser.read([filename])`
(the `configparser` standard library is not under `src/`) — reading a list
of filenames silently skips files that cannot be opened, so an absent file
yields a parser holding no sections. -/
def parserOf : Option IniFile → List (String × List (String × String))
  | none => []
  | some f => f.sections

/-- The exception that `Config.read_config` catches. -/
inductive ConfigError where
  | noSectionError
  deriving DecidableEq

/-- Modelled from the spec: `configparser.RawConfigParser.items(section)`
(the `configparser` standard library is not under `src/`) — the key/value
items of the named section, raising `NoSectionError` when the section is
absent. -/
def RawConfigParser.items
    (sections : List (String × List (String × String))) (name : String) :
    Except ConfigError (List (String × String)) :=
  match dictGet sections name with
  | some l => Except.ok l
  | none => Except.error ConfigError.noSectionError

/-- `Config.read_config` (`src/show/main.py` lines 28-34): parse the file,
merge the items of the `aliases` section into `self.aliases` with
`dict.update`, and swallow `NoSectionError`. The `Except` result records
whether an exception escapes; `Config.__init__` starts `aliases` at the
empty dict. -/
def Config.read_config (aliases : List (String × String))
    (file : Option IniFile) : Except ConfigError (List (String × String)) :=
  match RawConfigParser.items (parserOf file) "aliases" with
  | Except.ok l => Except.ok (dictUpdate aliases l)
  | Except.error ConfigError.noSectionError => Except.ok aliases

/-- The `aliases` section of an alias source, when the source and the
section both exist. -/
def aliasesSectionOf : Option IniFile → Option (List (String × String))
  | none => none
  | some f => dictGet f.sections "aliases"

/-- What `click.echo(out)` did inside `run_command`: succeeded, or raised
`IOError` with the given `errno`. -/
inductive EchoOutcome where
  | echoOk
  | ioError (errnoVal : Nat)
  deriving DecidableEq

/-- How a `run_command` call leaves the process: terminating via
`sys.exit` with a code, returning normally, or re-raising an exception. -/
inductive RunOutcome where
  | exits (code : Int)
  | continues
  | raises (errnoVal : Nat)
  deriving DecidableEq

/-- `errno.EPIPE` on Linux. -/
def EPIPE : Nat := 32

/-- `run_command` (`src/show/main.py` lines 86-105), after the subprocess
has finished with `returncode`: echoing the captured output may raise
`IOError`, where `EPIPE` is absorbed by `sys.exit(0)` and anything else is
re-raised; otherwise a non-zero `returncode` is propagated verbatim through
`sys.exit(proc.returncode)` and a zero one falls off the end of the
function. -/
def run_command (echo : EchoOutcome) (returncode : Int) : RunOutcome :=
  match echo with
  | EchoOutcome.ioError e =>
    if e = EPIPE then RunOutcome.exits 0 else RunOutcome.raises e
  | EchoOutcome.echoOk =>
    if returncode ≠ 0 then RunOutcome.exits returncode else RunOutcome.continues

/-!  Helper lemmas about the list-level primitives.  -/

theorem charsStartWith_nil : ∀ l : List Char, charsStartWith l [] = true := by
  intro l
  cases l <;> rfl

theorem mem_insertSorted {x s : String} {l : List String} :
    x ∈ insertSorted s l ↔ x = s ∨ x ∈ l := by
  induction l with
  | nil => simp [insertSorted]
  | cons a t ih =>
    simp only [insertSorted]
    split
    · simp
    · simp only [List.mem_cons, ih]
      tauto

theorem mem_sortStrings {x : String} {l : List String} :
    x ∈ sortStrings l ↔ x ∈ l := by
  induction l with
  | nil => simp [sortStrings]
  | cons a t ih => simp [sortStrings, mem_insertSorted, ih]

theorem dictGet_isSome_of_mem {α : Type} {d : List (String × α)} {k : String}
    (h : k ∈ d.map Prod.fst) : (dictGet d k).isSome := by
  induction d with
  | nil => simp at h
  | cons p t ih =>
    simp only [List.map_cons, List.mem_cons] at h
    by_cases hk : p.1 = k
    · cases p with
      | mk k' v => simp only at hk; simp [dictGet, hk]
    · cases p with
      | mk k' v =>
        simp only at hk
        simp only [dictGet, hk, if_false]
        exact ih (by tauto)

theorem length_insertSorted (s : String) (l : List String) :
    (insertSorted s l).length = l.length + 1 := by
  induction l with
  | nil => rfl
  | cons a t ih =>
    simp only [insertSorted]
    split
    · simp
    · simp [ih]

theorem length_sortStrings (l : List String) :
    (sortStrings l).length = l.length := by
  induction l with
  | nil => rfl
  | cons a t ih => simp [sortStrings, length_insertSorted, ih]

theorem pyStartsWith_empty (s : String) : pyStartsWith s "" = true := by
  have h : ("" : String).data = [] := rfl
  unfold pyStartsWith
  rw [h]
  exact charsStartWith_nil _

/-- The empty token abbreviation-matches every declared child name. -/
theorem matchesFor_empty_token (g : Group) :
    matchesFor g "" = list_commands g := by
  unfold matchesFor
  apply List.filter_eq_self.mpr
  intro a _
  have h0 : pyLower "" = "" := rfl
  rw [h0]
  exact pyStartsWith_empty (pyLower a)

/-- Shared core: with no exact and no alias match, two or more abbreviation
candidates make `get_command` fail with the sorted comma-joined listing. -/
theorem get_command_too_many (aliases : List (String × String)) (g : Group)
    (ctx : Ctx) (t : String)
    (h1 : dictGet g.commands t = none) (h2 : dictGet aliases t = none)
    (h3 : 2 ≤ (matchesFor g t).length) :
    AliasedGroup.get_command aliases g ctx t =
      Result.fail 2 ("Too many matches: " ++
        String.intercalate ", " (sortStrings (matchesFor g t))) := by
  have hne : (matchesFor g t).isEmpty = false := by
    cases hm : matchesFor g t with
    | nil => rw [hm] at h3; simp at h3
    | cons a l => simp
  have hlen : ¬ (matchesFor g t).length = 1 := by omega
  simp [AliasedGroup.get_command, click.Group.get_command, h1, h2,
    abbrevOrDefaultStage, hne, hlen]

/-- Claim C1: a token that case-sensitively equals the name of a registered
child of the group resolves to that child, whatever the alias table holds
and whatever abbreviations would also match. -/
theorem c1_exact_match_wins (aliases : List (String × String)) (g : Group)
    (ctx : Ctx) (t : String) (node : Nat)
    (h : dictGet g.commands t = some node) :
    AliasedGroup.get_command aliases g ctx t = Result.ok ctx (some node) := by
  simp [AliasedGroup.get_command, click.Group.get_command, h]

/-- Claim C1 witness: at the root group, `interfaces` resolves to the
`interfaces` child even with an alias entry reusing that name. -/
theorem c1_exact_match_wins_witness :
    AliasedGroup.get_command [("interfaces", "route")] cliGroup (Ctx.mk none)
      "interfaces" = Result.ok (Ctx.mk none) (some 31) :=
  c1_exact_match_wins [("interfaces", "route")] cliGroup (Ctx.mk none)
    "interfaces" 31 (by decide)

/-- Claim C2 counterexample: with the alias `st -> nosuch` whose target is
not a child of the group, the code returns the not-found result `none` at
the alias step instead of falling through to the abbreviation/default tail
(which here would have resolved `st` to the child `status`, node 90); the
dispatch then terminates with the "No such command" usage error. -/
theorem c2_alias_miss_counterexample :
    AliasedGroup.get_command [("st", "nosuch")] gAliasMiss (Ctx.mk none) "st" =
      Result.ok (Ctx.mk none) none ∧
    abbrevOrDefaultStage gAliasMiss (Ctx.mk none) "st" =
      Result.ok (Ctx.mk none) (some 90) ∧
    AliasedGroup.get_command [("st", "nosuch")] gAliasMiss (Ctx.mk none) "st" ≠
      abbrevOrDefaultStage gAliasMiss (Ctx.mk none) "st" ∧
    DefaultGroup.resolve_command [("st", "nosuch")] gAliasMiss (Ctx.mk none)
      ["st"] = Result.fail 2 "No such command \"st\"." := by
  refine ⟨by decide, by decide, by decide, by decide⟩

/-- Claim C2 (amended): for a token that is not an exact child name but is
an alias key, resolution returns the exact lookup of the alias's canonical
target unconditionally — `none` (not found) when that target is not a
registered child — and dispatch then terminates with a "No such command"
usage error; it does not fall through to prefix matching or the default
fallback. -/
theorem c2_amended_alias_miss_is_not_found (aliases : List (String × String))
    (g : Group) (ctx : Ctx) (t b : String) (rest : List String)
    (h1 : dictGet g.commands t = none) (h2 : dictGet aliases t = some b)
    (h3 : dictGet g.commands b = none) :
    AliasedGroup.get_command aliases g ctx t = Result.ok ctx none ∧
    DefaultGroup.resolve_command aliases g ctx (t :: rest) =
      Result.fail 2 ("No such command \"" ++ t ++ "\".") := by
  have hg : AliasedGroup.get_command aliases g ctx t = Result.ok ctx none := by
    simp [AliasedGroup.get_command, click.Group.get_command, h1, h2, h3]
  refine ⟨hg, ?_⟩
  simp [DefaultGroup.resolve_command, hg]

/-- Claim C2 (amended) witness at the counterexample input. -/
theorem c2_amended_witness :
    AliasedGroup.get_command [("st", "nosuch")] gAliasMiss (Ctx.mk none) "st" =
      Result.ok (Ctx.mk none) none ∧
    DefaultGroup.resolve_command [("st", "nosuch")] gAliasMiss (Ctx.mk none)
      ["st"] = Result.fail 2 ("No such command \"" ++ "st" ++ "\".") :=
  c2_amended_alias_miss_is_not_found [("st", "nosuch")] gAliasMiss (Ctx.mk none)
    "st" "nosuch" [] (by decide) (by decide) (by decide)

/-- Claim C3: with no exact and no alias match, a token whose lowercased
form is a prefix of more than one child name is a fatal usage error
(`ctx.fail`, exit code 2) for the whole invocation, reporting the matching
candidates sorted and comma-joined. -/
theorem c3_ambiguous_abbreviation_fatal (aliases : List (String × String))
    (g : Group) (ctx : Ctx) (t : String) (rest : List String)
    (h1 : dictGet g.commands t = none) (h2 : dictGet aliases t = none)
    (h3 : 2 ≤ (matchesFor g t).length) :
    AliasedGroup.get_command aliases g ctx t =
      Result.fail 2 ("Too many matches: " ++
        String.intercalate ", " (sortStrings (matchesFor g t))) ∧
    DefaultGroup.resolve_command aliases g ctx (t :: rest) =
      Result.fail 2 ("Too many matches: " ++
        String.intercalate ", " (sortStrings (matchesFor g t))) := by
  have h := get_command_too_many aliases g ctx t h1 h2 h3
  refine ⟨h, ?_⟩
  simp [DefaultGroup.resolve_command, h]

/-- Claim C3 witness: at the root group, token `u` abbreviates both
`uptime` and `users` and dispatch fails with the sorted listing. -/
theorem c3_ambiguous_witness :
    AliasedGroup.get_command [] cliGroup (Ctx.mk none) "u" =
      Result.fail 2 "Too many matches: uptime, users" ∧
    DefaultGroup.resolve_command [] cliGroup (Ctx.mk none) ["u"] =
      Result.fail 2 "Too many matches: uptime, users" := by
  have h := c3_ambiguous_abbreviation_fatal [] cliGroup (Ctx.mk none) "u" []
    (by decide) (by decide) (by decide)
  exact ⟨h.1.trans (by decide), h.2.trans (by decide)⟩

/-- Claim C4: with no exact, alias, or abbreviation match at a group that
declares a registered default child, resolution routes to the default child
and dispatch prepends the original typed token as the implicit leading
argument handed to it. -/
theorem c4_default_fallback_prepends_token (aliases : List (String × String))
    (g : Group) (ctx : Ctx) (t d : String) (node : Nat) (rest : List String)
    (h1 : dictGet g.commands t = none) (h2 : dictGet aliases t = none)
    (h3 : matchesFor g t = []) (h4 : g.default_cmd_name = some d)
    (h5 : dictGet g.commands d = some node) :
    AliasedGroup.get_command aliases g ctx t =
      Result.ok (Ctx.mk (some (some t))) (some node) ∧
    DefaultGroup.resolve_command aliases g ctx (t :: rest) =
      Result.ok (Ctx.mk (some (some t))) (node, some t :: rest.map some) := by
  have hg : AliasedGroup.get_command aliases g ctx t =
      Result.ok (Ctx.mk (some (some t))) (some node) := by
    simp [AliasedGroup.get_command, click.Group.get_command, h1, h2,
      abbrevOrDefaultStage, h3, DefaultGroup.get_command, dictGetOpt, h4, h5,
      resultOfPair]
  refine ⟨hg, ?_⟩
  simp [DefaultGroup.resolve_command, hg]

/-- Claim C4 witness: the unmatched token `xyz` routes to the default child
`status` (node 90) with `xyz` prepended to the remaining arguments. -/
theorem c4_default_fallback_witness :
    AliasedGroup.get_command [] demoDefaultGroup (Ctx.mk none) "xyz" =
      Result.ok (Ctx.mk (some (some "xyz"))) (some 90) ∧
    DefaultGroup.resolve_command [] demoDefaultGroup (Ctx.mk none)
      ["xyz", "extra"] =
      Result.ok (Ctx.mk (some (some "xyz")))
        (90, some "xyz" :: [("extra" : String)].map some) :=
  c4_default_fallback_prepends_token [] demoDefaultGroup (Ctx.mk none) "xyz"
    "status" 90 ["extra"] (by decide) (by decide) (by decide) (by decide)
    (by decide)

/-- Claim C5: an alias `a -> b` whose target `b` is a registered child,
with `a` itself not a child name, makes resolving `a` yield the same
command node as resolving `b`. -/
theorem c5_alias_resolves_like_target (aliases : List (String × String))
    (g : Group) (ctx : Ctx) (a b : String) (node : Nat)
    (h1 : dictGet aliases a = some b) (h2 : dictGet g.commands b = some node)
    (h3 : dictGet g.commands a = none) :
    AliasedGroup.get_command aliases g ctx a =
      AliasedGroup.get_command aliases g ctx b := by
  simp [AliasedGroup.get_command, click.Group.get_command, h1, h2, h3]

/-- Claim C5 witness: with the alias `st -> status`, resolving `st` equals
resolving `status`. -/
theorem c5_alias_witness :
    AliasedGroup.get_command [("st", "status")] demoDefaultGroup (Ctx.mk none)
      "st" =
    AliasedGroup.get_command [("st", "status")] demoDefaultGroup (Ctx.mk none)
      "status" :=
  c5_alias_resolves_like_target [("st", "status")] demoDefaultGroup
    (Ctx.mk none) "st" "status" 90 (by decide) (by decide) (by decide)

/-- Claim C6: with no exact and no alias match, a token whose lowercased
form is a prefix of exactly one child name resolves to that unique child. -/
theorem c6_unique_abbreviation (aliases : List (String × String)) (g : Group)
    (ctx : Ctx) (t m : String)
    (h1 : dictGet g.commands t = none) (h2 : dictGet aliases t = none)
    (h3 : matchesFor g t = [m]) :
    ∃ node, dictGet g.commands m = some node ∧
      AliasedGroup.get_command aliases g ctx t = Result.ok ctx (some node) := by
  have hmem : m ∈ list_commands g := by
    have hmf : m ∈ matchesFor g t := by rw [h3]; exact List.mem_singleton.mpr rfl
    exact List.mem_of_mem_filter hmf
  have hkey : m ∈ g.commands.map Prod.fst := by
    unfold list_commands at hmem
    exact mem_sortStrings.mp hmem
  obtain ⟨node, hnode⟩ := Option.isSome_iff_exists.mp (dictGet_isSome_of_mem hkey)
  refine ⟨node, hnode, ?_⟩
  simp [AliasedGroup.get_command, click.Group.get_command, h1, h2,
    abbrevOrDefaultStage, h3, DefaultGroup.get_command, dictGetOpt,
    resultOfPair, hnode]

/-- Claim C6 witness: at the root group, `int` abbreviates only
`interfaces` and resolves to it. -/
theorem c6_unique_abbreviation_witness :
    ∃ node, dictGet cliGroup.commands "interfaces" = some node ∧
      AliasedGroup.get_command [] cliGroup (Ctx.mk none) "int" =
        Result.ok (Ctx.mk none) (some node) :=
  c6_unique_abbreviation [] cliGroup (Ctx.mk none) "int" "interfaces"
    (by decide) (by decide) (by decide)

/-- Claim C7: loading the alias table never lets an exception escape, and
an absent source file or a source without an `aliases` section leaves the
initial empty table unchanged. -/
theorem c7_read_config_fails_soft (start : List (String × String))
    (file : Option IniFile) :
    (∃ t, Config.read_config start file = Except.ok t) ∧
    (aliasesSectionOf file = none →
      Config.read_config start file = Except.ok start) := by
  cases file with
  | none => exact ⟨⟨start, rfl⟩, fun _ => rfl⟩
  | some f =>
    cases hs : dictGet f.sections "aliases" with
    | none =>
      constructor
      · exact ⟨start, by
          simp [Config.read_config, RawConfigParser.items, parserOf, hs]⟩
      · intro _
        simp [Config.read_config, RawConfigParser.items, parserOf, hs]
    | some l =>
      constructor
      · exact ⟨dictUpdate start l, by
          simp [Config.read_config, RawConfigParser.items, parserOf, hs]⟩
      · intro hcontra
        simp [aliasesSectionOf, hs] at hcontra

/-- Claim C7 witness: an absent file and a file holding only an unrelated
section both load the empty alias table without error. -/
theorem c7_read_config_witness :
    Config.read_config [] none = Except.ok [] ∧
    Config.read_config [] (some ⟨[("other", [("k", "v")])]⟩) =
      Except.ok [] :=
  ⟨(c7_read_config_fails_soft [] none).2 rfl,
   (c7_read_config_fails_soft [] (some ⟨[("other", [("k", "v")])]⟩)).2
     (by decide)⟩

/-- Claim C8: when output echoing succeeds, a non-zero subprocess return
code terminates the process with exactly that code via `sys.exit`, and a
zero return code lets `run_command` return normally. -/
theorem c8_exit_code_propagation (rc : Int) :
    (rc ≠ 0 → run_command EchoOutcome.echoOk rc = RunOutcome.exits rc) ∧
    run_command EchoOutcome.echoOk 0 = RunOutcome.continues := by
  constructor
  · intro h
    simp [run_command, h]
  · rfl

/-- Claim C8 witness at return codes 5 and 0. -/
theorem c8_exit_code_witness :
    run_command EchoOutcome.echoOk 5 = RunOutcome.exits 5 ∧
    run_command EchoOutcome.echoOk 0 = RunOutcome.continues :=
  ⟨(c8_exit_code_propagation 5).1 (by decide), (c8_exit_code_propagation 0).2⟩

/-- Claim C9: the `ip` and `processes` groups are plain `click.Group`s, so
resolution beneath them is the exact child-name lookup only — independent
of the alias table and with no abbreviation or default fallback. -/
theorem c9_plain_groups_exact_only :
    ipGroup.cls = GroupClass.clickGroup ∧
    processesGroup.cls = GroupClass.clickGroup ∧
    (∀ (aliases : List (String × String)) (ctx : Ctx) (t : String),
      Group.get_command_by_class aliases ipGroup ctx t =
        Result.ok ctx (dictGet ipGroup.commands t)) ∧
    (∀ (aliases : List (String × String)) (ctx : Ctx) (t : String),
      Group.get_command_by_class aliases processesGroup ctx t =
        Result.ok ctx (dictGet processesGroup.commands t)) :=
  ⟨rfl, rfl, fun _ _ _ => rfl, fun _ _ _ => rfl⟩

/-- Claim C10: at an aliased group with at least two children, the empty
token (neither a child name nor an alias key) abbreviation-matches every
child and resolution is the fatal too-many-matches error listing all child
names — not the default fallback and not a plain not-found. -/
theorem c10_empty_token_too_many (aliases : List (String × String))
    (g : Group) (ctx : Ctx)
    (h1 : dictGet g.commands "" = none) (h2 : dictGet aliases "" = none)
    (h3 : 2 ≤ g.commands.length) :
    AliasedGroup.get_command aliases g ctx "" =
      Result.fail 2 ("Too many matches: " ++
        String.intercalate ", " (sortStrings (list_commands g))) := by
  have hall : matchesFor g "" = list_commands g := matchesFor_empty_token g
  have hlen : 2 ≤ (matchesFor g "").length := by
    rw [hall]
    unfold list_commands
    rw [length_sortStrings, List.length_map]
    exact h3
  have h := get_command_too_many aliases g ctx "" h1 h2 hlen
  rw [hall] at h
  exact h

/-- Claim C10 witness: the empty token at the `lldp` group fails listing
both children. -/
theorem c10_empty_token_witness :
    AliasedGroup.get_command [] lldpGroup (Ctx.mk none) "" =
      Result.fail 2 "Too many matches: neighbors, table" := by
  have h := c10_empty_token_too_many [] lldpGroup (Ctx.mk none)
    (by decide) (by decide) (by decide)
  exact h.trans (by decide)

end SonicShow
